import Mathlib

/-!
Shallow embedding of `src/wip/TS Source/animation/Animation.ts` (module Phaser,
class Animation): a sprite frame-sequence animation player.

Modelling conventions:
* Machine numbers (`number` in TS) that hold times or the frame delay are
  modelled as `ℚ` (the claims do not depend on float rounding); frame keys and
  sizes are `Nat`.
* Nullable references (`game`, `_parent`, `_frames`, `_frameData`,
  `currentFrame` — all set to `null` by `destroy`) are `Option`s.  An operation
  that would dereference a `null` reference in TS returns `none` (a crash);
  live operations return `some` of the updated state.
* `FrameData` is external to the repository (only its caller is in `src/`).
  Modelled from the spec: a frame table with `lookup(key) -> descriptor | absent`,
  descriptor carrying an atlas index, width and height; embedded as an
  association list.
* The parent sprite is modelled by the two pieces the animation mutates: its
  `texture` size and its event sink, recorded as an append-only log of the
  dispatched channels (every dispatch in the source passes the constant
  arguments `(this._parent, this)`, so logging the channel loses nothing).
* The external clock `game.time.now` is passed to `play`/`restart`/`update` as
  an explicit `now` argument; reading it still requires the `game` reference
  to be live.
* `_timeLastFrame`/`_timeNextFrame` are left undefined by the TS constructor;
  the embedding initialises them to `0` (they are written by `play`/`restart`
  before any use).
-/

/-- Frame descriptor from the atlas: `{index, width, height}` (the fields of
`Frame` the animation reads). -/
structure Frame where
  index : Nat
  width : Nat
  height : Nat
deriving DecidableEq, Repr

/-- Modelled from the spec: the external `FrameData` table, `lookup(key) ->
FrameDescriptor | absent`; its source is not in the repository. -/
def FrameData : Type := List (Nat × Frame)

instance : DecidableEq FrameData := inferInstanceAs (DecidableEq (List (Nat × Frame)))

/-- Modelled from the spec: `FrameData.getFrame` is a pure lookup by key,
returning the descriptor when present and null (`none`) otherwise. -/
def FrameData.getFrame (fd : FrameData) (key : Nat) : Option Frame :=
  (List.find? (fun q => q.1 = key) fd).map (fun q => q.2)

/-- The parent sprite's mutable texture size (`_parent.texture.width/height`). -/
structure Texture where
  width : Nat
  height : Nat
deriving DecidableEq, Repr

/-- The three event channels of the parent's sink
(`events.onAnimationStart/onAnimationLoop/onAnimationComplete`). -/
inductive AnimEvent where
  | onAnimationStart
  | onAnimationLoop
  | onAnimationComplete
deriving DecidableEq, Repr

/-- The parent sprite, reduced to what the animation touches: the texture size
and the log of dispatched events (in dispatch order). -/
structure Parent where
  texture : Texture
  events : List AnimEvent
deriving DecidableEq, Repr

/-- State of `Phaser.Animation`: one field per TS field. -/
structure Animation where
  game : Option Unit
  parent : Option Parent
  frames : Option (List Nat)
  frameData : Option FrameData
  name : String
  delay : ℚ
  looped : Bool
  isFinished : Bool
  isPlaying : Bool
  frameIndex : Nat
  currentFrame : Option Frame
  timeLastFrame : ℚ
  timeNextFrame : ℚ
deriving DecidableEq

/-- The TS constructor: stores the references, sets `delay = 1000 / delay`
(the parameter is a frame rate despite its name), clears both flags, puts the
cursor at 0 and eagerly resolves `currentFrame` from the first key. -/
def Animation.create (game : Unit) (parent : Parent) (frameData : FrameData)
    (name : String) (frames : List Nat) (delay : ℚ) (looped : Bool) : Animation :=
  { game := some game
    parent := some parent
    frames := some frames
    frameData := some frameData
    name := name
    delay := 1000 / delay
    looped := looped
    isFinished := false
    isPlaying := false
    frameIndex := 0
    currentFrame := (frames.get? 0).bind frameData.getFrame
    timeLastFrame := 0
    timeNextFrame := 0 }

/-- Getter `frameTotal`: `this._frames.length`. -/
def Animation.frameTotal (a : Animation) : Option Nat :=
  (a.frames).map List.length

/-- Getter `frame`: the current frame's atlas index when `currentFrame` is
non-null, else the sequence cursor `_frameIndex`. -/
def Animation.frameGet (a : Animation) : Nat :=
  match a.currentFrame with
  | some f => f.index
  | none => a.frameIndex

/-- Setter `frame(value)`: resolve `value` in `_frameData`; when found, push
width/height onto the parent texture and set `_frameIndex = value`; when not
found, only `currentFrame` is overwritten (with null). -/
def Animation.setFrame (a : Animation) (value : Nat) : Option Animation :=
  match a.frameData with
  | none => none
  | some fd =>
    match fd.getFrame value with
    | some f =>
      match a.parent with
      | none => none
      | some p =>
        some { a with
          currentFrame := some f
          parent := some { p with texture := { width := f.width, height := f.height } }
          frameIndex := value }
    | none => some { a with currentFrame := none }

/-- Method `play(frameRate?, loop?)`: apply the optional rate/loop overrides,
set the flags, reset timing from `now`, reset the cursor to 0, re-resolve
`currentFrame`, and dispatch `onAnimationStart` on the parent. -/
def Animation.play (a : Animation) (now : ℚ) (frameRate : Option ℚ)
    (loop : Option Bool) : Option Animation :=
  let delay2 := match frameRate with
    | some r => 1000 / r
    | none => a.delay
  let looped2 := match loop with
    | some l => l
    | none => a.looped
  match a.game, a.frames, a.frameData, a.parent with
  | some _, some fs, some fd, some p =>
    some { a with
      delay := delay2
      looped := looped2
      isPlaying := true
      isFinished := false
      timeLastFrame := now
      timeNextFrame := now + delay2
      frameIndex := 0
      currentFrame := (fs.get? 0).bind fd.getFrame
      parent := some { p with events := p.events ++ [AnimEvent.onAnimationStart] } }
  | _, _, _, _ => none

/-- Method `restart()`: the same reset as `play` without overrides, but no
event dispatch (the parent reference is not touched). -/
def Animation.restart (a : Animation) (now : ℚ) : Option Animation :=
  match a.game, a.frames, a.frameData with
  | some _, some fs, some fd =>
    some { a with
      isPlaying := true
      isFinished := false
      timeLastFrame := now
      timeNextFrame := now + a.delay
      frameIndex := 0
      currentFrame := (fs.get? 0).bind fd.getFrame }
  | _, _, _ => none

/-- Method `stop()`: clears `isPlaying`, sets `isFinished`; touches nothing
else and dereferences nothing. -/
def Animation.stop (a : Animation) : Animation :=
  { a with isPlaying := false, isFinished := true }

/-- Private `onComplete()`: clears `isPlaying`, sets `isFinished` and
dispatches `onAnimationComplete`. -/
def Animation.onComplete (a : Animation) : Option Animation :=
  match a.parent with
  | none => none
  | some p =>
    some { a with
      isPlaying := false
      isFinished := true
      parent := some { p with events := p.events ++ [AnimEvent.onAnimationComplete] } }

/-- The advancing step inside `update()` (lines 220–238 of the source): after
the cursor increment `_frameIndex++`, either wrap (looped, cursor past the
end), complete (non-looped, cursor past the end) or re-resolve the frame for
the incremented cursor. `fs` is the dereferenced `_frames`. -/
def Animation.advance (a : Animation) (fs : List Nat) : Option Animation :=
  if a.frameIndex + 1 = fs.length then
    if a.looped = true then
      match a.frameData, a.parent with
      | some fd, some p =>
        some { a with
          frameIndex := 0
          currentFrame := (fs.get? 0).bind fd.getFrame
          parent := some { p with events := p.events ++ [AnimEvent.onAnimationLoop] } }
      | _, _ => none
    else
      Animation.onComplete { a with frameIndex := a.frameIndex + 1 }
  else
    match a.frameData with
    | none => none
    | some fd =>
      some { a with
        frameIndex := a.frameIndex + 1
        currentFrame := (fs.get? (a.frameIndex + 1)).bind fd.getFrame }

/-- Method `update()`: no-op returning false unless playing and
`now >= _timeNextFrame`; otherwise perform the advancing step, then — in
every advancing branch, completion included — set `_timeLastFrame = now`,
`_timeNextFrame = now + delay` and return true. -/
def Animation.update (a : Animation) (now : ℚ) : Option ( Animation × Bool) :=
  if a.isPlaying = true then
    match a.game with
    | none => none
    | some _ =>
      if a.timeNextFrame ≤ now then
        match a.frames with
        | none => none
        | some fs =>
          (a.advance fs).map
            (fun b => ({ b with timeLastFrame := now, timeNextFrame := now + a.delay }, true))
      else some (a, false)
  else some (a, false)

/-- Method `destroy()`: null out `game`, `_parent`, `_frames`, `_frameData`
and `currentFrame`, and clear `isPlaying`; every other field is untouched. -/
def Animation.destroy (a : Animation) : Animation :=
  { a with
    game := none
    parent := none
    frames := none
    frameData := none
    currentFrame := none
    isPlaying := false }

/-! ### Concrete instances used by counterexamples and witnesses -/

/-- A looped single-frame animation (counterexample instance for C1). -/
def c1A : Animation := Animation.create () { texture := { width := 0, height := 0 }, events := [] }
  [(7, { index := 2, width := 3, height := 4 })] "a" [7] 10 true

/-- A non-looped single-frame animation (counterexample instance for C2). -/
def c2A : Animation := Animation.create () { texture := { width := 0, height := 0 }, events := [] }
  [(7, { index := 2, width := 3, height := 4 })] "a" [7] 10 false

/-- A non-looped single-frame animation (counterexample instance for C4). -/
def c4A : Animation := Animation.create () { texture := { width := 0, height := 0 }, events := [] }
  [(7, { index := 2, width := 3, height := 4 })] "a" [7] 10 false

/-- An animation whose single frame has width 3 and height 4 while the parent
texture is 0 by 0 (counterexample instance for C7). -/
def c7A : Animation := Animation.create () { texture := { width := 0, height := 0 }, events := [] }
  [(1, { index := 9, width := 3, height := 4 })] "a" [1] 10 false

/-- Parent with zero texture size and an empty event log, used by the
witness instances below. -/
def pW : Parent := { texture := { width := 0, height := 0 }, events := [] }

/-- Two-frame table for the C1 witness. -/
def c1wF : FrameData :=
  [(1, { index := 5, width := 3, height := 4 }), (2, { index := 6, width := 7, height := 8 })]

/-- Freshly constructed two-frame non-looped instance (C1 witness). -/
def c1wA : Animation := Animation.create () pW c1wF "w" [1, 2] 10 false

/-- The state of `c1wA` right after `play()` at time 0. -/
def c1wB : Animation :=
  { game := some ()
    parent := some { texture := { width := 0, height := 0 }, events := [AnimEvent.onAnimationStart] }
    frames := some [1, 2]
    frameData := some c1wF
    name := "w"
    delay := 100
    looped := false
    isFinished := false
    isPlaying := true
    frameIndex := 0
    currentFrame := some { index := 5, width := 3, height := 4 }
    timeLastFrame := 0
    timeNextFrame := 100 }

/-- One-frame table for the C2 witness. -/
def c2wF : FrameData := [(5, { index := 0, width := 2, height := 2 })]

/-- A playing, non-looped single-frame instance due to advance at time 100
(C2 witness). -/
def c2wA : Animation :=
  { game := some ()
    parent := some pW
    frames := some [5]
    frameData := some c2wF
    name := "w"
    delay := 100
    looped := false
    isFinished := false
    isPlaying := true
    frameIndex := 0
    currentFrame := some { index := 0, width := 2, height := 2 }
    timeLastFrame := 0
    timeNextFrame := 100 }

/-- `c2wA` after `play()` at time 100. -/
def c2wB1 : Animation := { c2wA with
  parent := some { texture := { width := 0, height := 0 }, events := [AnimEvent.onAnimationStart] }
  timeLastFrame := 100
  timeNextFrame := 200 }

/-- `c2wA` after `restart()` at time 100. -/
def c2wB2 : Animation := { c2wA with timeLastFrame := 100, timeNextFrame := 200 }

/-- `c2wA` after the completing `update()` at time 100. -/
def c2wB4 : Animation := { c2wA with
  frameIndex := 1
  isPlaying := false
  isFinished := true
  parent := some { texture := { width := 0, height := 0 }, events := [AnimEvent.onAnimationComplete] }
  timeLastFrame := 100
  timeNextFrame := 200 }

/-- `c2wA` after seeking to the absent key 9. -/
def c2wB5 : Animation := { c2wA with currentFrame := none }

/-- Three-frame table for the C3 witness. -/
def c3wF : FrameData :=
  [(4, { index := 0, width := 1, height := 1 }), (5, { index := 1, width := 1, height := 1 }),
    (6, { index := 2, width := 1, height := 1 })]

/-- A playing non-looped three-frame instance at the last position, due at
time 100 (C3 witness). -/
def c3W : Animation :=
  { game := some ()
    parent := some pW
    frames := some [4, 5, 6]
    frameData := some c3wF
    name := "w"
    delay := 100
    looped := false
    isFinished := false
    isPlaying := true
    frameIndex := 2
    currentFrame := some { index := 2, width := 1, height := 1 }
    timeLastFrame := 0
    timeNextFrame := 100 }

/-- A playing, non-looped single-frame instance due to advance at time 100
(C4 witness). -/
def c4wA : Animation :=
  { game := some ()
    parent := some pW
    frames := some [5]
    frameData := some [(5, { index := 0, width := 2, height := 2 })]
    name := "w"
    delay := 100
    looped := false
    isFinished := false
    isPlaying := true
    frameIndex := 0
    currentFrame := some { index := 0, width := 2, height := 2 }
    timeLastFrame := 0
    timeNextFrame := 100 }

/-- `c4wA` after the completing `update()` at time 100. -/
def c4wB : Animation := { c4wA with
  frameIndex := 1
  isPlaying := false
  isFinished := true
  parent := some { texture := { width := 0, height := 0 }, events := [AnimEvent.onAnimationComplete] }
  timeLastFrame := 100
  timeNextFrame := 200 }

/-- One-frame table for the C5 witness. -/
def c5wF : FrameData := [(1, { index := 0, width := 3, height := 4 })]

/-- Freshly constructed instance over `c5wF` (C5 witness). -/
def c5A : Animation := Animation.create () pW c5wF "w" [1] 10 false

/-- Three-frame table for the C6 witness. -/
def c6wF : FrameData :=
  [(4, { index := 0, width := 1, height := 1 }), (5, { index := 1, width := 1, height := 1 }),
    (6, { index := 2, width := 1, height := 1 })]

/-- A playing looped three-frame instance at the last position, due at time
100 (C6 witness). -/
def c6W : Animation :=
  { game := some ()
    parent := some pW
    frames := some [4, 5, 6]
    frameData := some c6wF
    name := "w"
    delay := 100
    looped := true
    isFinished := false
    isPlaying := true
    frameIndex := 2
    currentFrame := some { index := 2, width := 1, height := 1 }
    timeLastFrame := 0
    timeNextFrame := 100 }

/-- A non-playing looped instance (second part of the C6 witness). -/
def c6W2 : Animation := { c6W with isPlaying := false }

/-- One-frame table for the C7 witness. -/
def c7wF : FrameData := [(2, { index := 1, width := 6, height := 7 })]

/-- Freshly constructed instance over `c7wF` (C7 witness). -/
def c7wA : Animation := Animation.create () pW c7wF "w" [2] 10 false

/-- The state of `c7wA` right after `play()` at time 0. -/
def c7wB3 : Animation :=
  { game := some ()
    parent := some { texture := { width := 0, height := 0 }, events := [AnimEvent.onAnimationStart] }
    frames := some [2]
    frameData := some c7wF
    name := "w"
    delay := 100
    looped := false
    isFinished := false
    isPlaying := true
    frameIndex := 0
    currentFrame := some { index := 1, width := 6, height := 7 }
    timeLastFrame := 0
    timeNextFrame := 100 }

/-- One-frame table for the C8 witness. -/
def c8wF : FrameData := [(3, { index := 0, width := 1, height := 2 })]

/-- A stopped looped instance with stale timing fields (C8 witness). -/
def c8W : Animation :=
  { game := some ()
    parent := some pW
    frames := some [3]
    frameData := some c8wF
    name := "w"
    delay := 50
    looped := true
    isFinished := true
    isPlaying := false
    frameIndex := 0
    currentFrame := none
    timeLastFrame := 7
    timeNextFrame := 9 }

/-! ### Characterisation lemmas shared by the claim proofs -/

/-- A successful `update` either is the non-advancing no-op (state returned
unchanged, result false) or returns true with the state produced by the
advancing step plus the unconditional timing write-back. -/
theorem update_eq (a : Animation) (now : ℚ) (b : Animation) (r : Bool)
    (hu : a.update now = some (b, r)) :
    (b = a ∧ r = false) ∨
    (r = true ∧ ∃ fs c, a.frames = some fs ∧ a.advance fs = some c ∧
      b = { c with timeLastFrame := now, timeNextFrame := now + a.delay }) := by
  unfold Animation.update at hu
  by_cases hpl : a.isPlaying = true
  · cases hgame : a.game with
    | none => simp [hpl, hgame] at hu
    | some u =>
      by_cases htt : a.timeNextFrame ≤ now
      · cases hfr : a.frames with
        | none => simp [hpl, hgame, htt, hfr] at hu
        | some fs =>
          cases hadv : a.advance fs with
          | none => simp [hpl, hgame, htt, hfr, hadv] at hu
          | some c =>
            simp only [hpl, hgame, htt, hfr, hadv, if_true, Option.map_some',
              Option.some.injEq, Prod.mk.injEq] at hu
            exact Or.inr ⟨hu.2.symm, fs, c, rfl, hadv, hu.1.symm⟩
      · rw [if_pos hpl, hgame, if_neg htt] at hu
        injection hu with hu
        injection hu with h1 h2
        exact Or.inl ⟨h1.symm, h2.symm⟩
  · rw [if_neg hpl] at hu
    injection hu with hu
    injection hu with h1 h2
    exact Or.inl ⟨h1.symm, h2.symm⟩

/-- The advancing step changes the parent only by appending a single loop or
completion event, the latter only when the animation is not looped. -/
theorem advance_parent (a c : Animation) (fs : List Nat) (h : a.advance fs = some c) :
    c.parent = a.parent ∨
    (a.looped = true ∧ ∃ p, a.parent = some p ∧
      c.parent = some { p with events := p.events ++ [AnimEvent.onAnimationLoop] }) ∨
    (a.looped = false ∧ ∃ p, a.parent = some p ∧
      c.parent = some { p with events := p.events ++ [AnimEvent.onAnimationComplete] }) := by
  unfold Animation.advance Animation.onComplete at h
  by_cases hlen : a.frameIndex + 1 = fs.length
  · rw [if_pos hlen] at h
    by_cases hlp : a.looped = true
    · rw [if_pos hlp] at h
      cases hfd : a.frameData with
      | none => rw [hfd] at h; exact absurd h (by simp)
      | some fd =>
        cases hp : a.parent with
        | none => rw [hfd, hp] at h; exact absurd h (by simp)
        | some p =>
          rw [hfd, hp] at h
          injection h with h
          subst h
          exact Or.inr (Or.inl ⟨hlp, p, rfl, rfl⟩)
    · rw [if_neg hlp] at h
      have hlf : a.looped = false := by revert hlp; cases a.looped <;> simp
      cases hp : a.parent with
      | none => rw [hp] at h; exact absurd h (by simp)
      | some p =>
        rw [hp] at h
        injection h with h
        subst h
        exact Or.inr (Or.inr ⟨hlf, p, rfl, rfl⟩)
  · rw [if_neg hlen] at h
    cases hfd : a.frameData with
    | none => rw [hfd] at h; exact absurd h (by simp)
    | some fd =>
      rw [hfd] at h
      injection h with h
      subst h
      exact Or.inl rfl

/-- Cursor positions produced by the advancing step: wrap to 0 (looped),
land one past the end while completing (non-looped), or move up by one while
staying strictly inside the sequence. -/
theorem advance_frameIndex (a c : Animation) (fs : List Nat) (h : a.advance fs = some c) :
    (c.frameIndex = 0 ∧ a.looped = true ∧ a.frameIndex + 1 = fs.length) ∨
    (c.frameIndex = a.frameIndex + 1 ∧ a.frameIndex + 1 = fs.length ∧ a.looped = false ∧
      c.isPlaying = false ∧ c.isFinished = true) ∨
    (c.frameIndex = a.frameIndex + 1 ∧ a.frameIndex + 1 ≠ fs.length) := by
  unfold Animation.advance Animation.onComplete at h
  by_cases hlen : a.frameIndex + 1 = fs.length
  · rw [if_pos hlen] at h
    by_cases hlp : a.looped = true
    · rw [if_pos hlp] at h
      cases hfd : a.frameData with
      | none => rw [hfd] at h; exact absurd h (by simp)
      | some fd =>
        cases hp : a.parent with
        | none => rw [hfd, hp] at h; exact absurd h (by simp)
        | some p =>
          rw [hfd, hp] at h
          injection h with h
          subst h
          exact Or.inl ⟨rfl, hlp, hlen⟩
    · rw [if_neg hlp] at h
      have hlf : a.looped = false := by revert hlp; cases a.looped <;> simp
      cases hp : a.parent with
      | none => rw [hp] at h; exact absurd h (by simp)
      | some p =>
        rw [hp] at h
        injection h with h
        subst h
        exact Or.inr (Or.inl ⟨rfl, hlen, hlf, rfl, rfl⟩)
  · rw [if_neg hlen] at h
    cases hfd : a.frameData with
    | none => rw [hfd] at h; exact absurd h (by simp)
    | some fd =>
      rw [hfd] at h
      injection h with h
      subst h
      exact Or.inr (Or.inr ⟨rfl, hlen⟩)

/-- A successful `play` resets the cursor to 0. -/
theorem play_frameIndex (a b : Animation) (now : ℚ) (fr : Option ℚ) (lp : Option Bool)
    (h : a.play now fr lp = some b) : b.frameIndex = 0 := by
  unfold Animation.play at h
  cases hg : a.game with
  | none => simp [hg] at h
  | some u =>
    cases hf : a.frames with
    | none => simp [hg, hf] at h
    | some fs =>
      cases hfd : a.frameData with
      | none => simp [hg, hf, hfd] at h
      | some fd =>
        cases hp : a.parent with
        | none => simp [hg, hf, hfd, hp] at h
        | some p =>
          simp only [hg, hf, hfd, hp, Option.some.injEq] at h
          subst h
          rfl

/-- A successful `restart` resets the cursor to 0. -/
theorem restart_frameIndex (a b : Animation) (now : ℚ)
    (h : a.restart now = some b) : b.frameIndex = 0 := by
  unfold Animation.restart at h
  cases hg : a.game with
  | none => simp [hg] at h
  | some u =>
    cases hf : a.frames with
    | none => simp [hg, hf] at h
    | some fs =>
      cases hfd : a.frameData with
      | none => simp [hg, hf, hfd] at h
      | some fd =>
        simp only [hg, hf, hfd, Option.some.injEq] at h
        subst h
        rfl

/-- A successful seek either keeps the cursor (key not found) or moves it to
the key value (key found). -/
theorem setFrame_frameIndex (a b : Animation) (v : Nat)
    (h : a.setFrame v = some b) :
    b.frameIndex = a.frameIndex ∨ b.frameIndex = v := by
  unfold Animation.setFrame at h
  cases hfd : a.frameData with
  | none => simp [hfd] at h
  | some fd =>
    cases hget : fd.getFrame v with
    | none =>
      simp only [hfd, hget, Option.some.injEq] at h
      subst h
      exact Or.inl rfl
    | some f =>
      cases hp : a.parent with
      | none => simp [hfd, hget, hp] at h
      | some p =>
        simp only [hfd, hget, hp, Option.some.injEq] at h
        subst h
        exact Or.inr rfl

/-! ### Claim theorems -/

/-- C1, counterexample: for the looped single-frame instance `c1A`, `play()` at
`t0 = 0` sets `currentIndex = 0` and `nextAdvanceTime = 100`; `update()` at
`now = 100 ≥ t0 + d` returns true but leaves `currentIndex` at 0 (loop
wraparound), not at the promised `0 + 1`. -/
theorem C1_counterexample :
    (c1A.play 0 none none).map (fun b => (b.frameIndex, b.timeNextFrame)) = some (0, 100) ∧
    ((c1A.play 0 none none).bind (fun b => (b.update 100).map (fun r => (r.2, r.1.frameIndex))))
      = some (true, 0) := by
  constructor
  · norm_num [c1A, Animation.create, Animation.play]
  · norm_num [c1A, Animation.create, Animation.play, Animation.update, Animation.advance,
      FrameData.getFrame]

/-- C2, counterexample: for the non-looped single-frame instance `c2A`, the
completing `update()` returns with `currentIndex = 1` while the sequence has
length 1, so the range invariant `currentIndex < len(frameSequence)` does not
survive the non-looped completion branch. -/
theorem C2_counterexample :
    ((c2A.play 0 none none).bind (fun b => (b.update 100).map (fun r => r.1.frameIndex)))
      = some 1 ∧
    c2A.frameTotal = some 1 ∧ ¬ (1 < 1) := by
  refine ⟨?_, by decide, by decide⟩
  norm_num [c2A, Animation.create, Animation.play, Animation.update, Animation.advance,
    Animation.onComplete, FrameData.getFrame]

/-- C4, counterexample: for the non-looped single-frame instance `c4A`, `play()`
at 0 sets the timing fields to `(0, 100)`, and the completing `update()` at
`now = 150` (the call that sets `isFinished = true`) returns true and leaves
the timing fields at `(150, 250)` — they are updated in the completion branch,
not retained. -/
theorem C4_counterexample :
    (c4A.play 0 none none).map (fun b => (b.timeLastFrame, b.timeNextFrame, b.looped))
      = some (0, 100, false) ∧
    ((c4A.play 0 none none).bind (fun b => (b.update 150).map
        (fun r => (r.2, r.1.isFinished, r.1.timeLastFrame, r.1.timeNextFrame))))
      = some (true, true, 150, 250) := by
  constructor
  · norm_num [c4A, Animation.create, Animation.play]
  · norm_num [c4A, Animation.create, Animation.play, Animation.update, Animation.advance,
      Animation.onComplete, FrameData.getFrame]

/-- C7, counterexample: `c7A`'s parent texture starts as 0 by 0; after `play()`
the resolved `currentFrame` has width 3 and height 4, yet the parent texture is
still 0 by 0 — `play()` does not write the frame size onto the parent texture. -/
theorem C7_counterexample :
    c7A.parent = some { texture := { width := 0, height := 0 }, events := [] } ∧
    ((c7A.play 0 none none).map (fun b => ((b.parent).map Parent.texture, b.currentFrame)))
      = some (some { width := 0, height := 0 }, some { index := 9, width := 3, height := 4 }) := by
  constructor
  · norm_num [c7A, Animation.create]
  · norm_num [c7A, Animation.create, Animation.play, FrameData.getFrame]

/-- C9: `stop()` clears `isPlaying`, sets `isFinished`, leaves the parent
(and hence its event log) untouched — no notification is dispatched — and is
idempotent: a second `stop()` yields the very same state. -/
theorem C9_stop_idempotent (a : Animation) :
    a.stop.isPlaying = false ∧ a.stop.isFinished = true ∧
    a.stop.parent = a.parent ∧
    a.stop.stop = a.stop :=
  ⟨rfl, rfl, rfl, rfl⟩

/-- C10: `destroy()` nulls `game`, `_parent`, `_frames`, `_frameData` and
`currentFrame` and clears `isPlaying`, while `isFinished`, the cursor, the
delay, the loop flag, both timing fields and the name keep their prior
values. -/
theorem C10_destroy (a : Animation) :
    a.destroy.game = none ∧ a.destroy.parent = none ∧ a.destroy.frames = none ∧
    a.destroy.frameData = none ∧ a.destroy.currentFrame = none ∧
    a.destroy.isPlaying = false ∧
    a.destroy.isFinished = a.isFinished ∧ a.destroy.frameIndex = a.frameIndex ∧
    a.destroy.delay = a.delay ∧ a.destroy.looped = a.looped ∧
    a.destroy.timeLastFrame = a.timeLastFrame ∧
    a.destroy.timeNextFrame = a.timeNextFrame ∧ a.destroy.name = a.name :=
  ⟨rfl, rfl, rfl, rfl, rfl, rfl, rfl, rfl, rfl, rfl, rfl, rfl, rfl⟩

/-- C3: for a playing non-looped instance whose cursor sits at the last
sequence position, a due `update()` returns true and yields exactly the state
with `isPlaying = false`, `isFinished = true`, precisely one
`onAnimationComplete` appended to the parent's log, and `currentFrame`
untouched (the record update does not mention it), i.e. it still holds the
last resolved frame rather than a re-resolved out-of-range one. -/
theorem C3_completion (a : Animation) (fs : List Nat) (p : Parent) (now : ℚ)
    (hp : a.isPlaying = true) (hl : a.looped = false)
    (hf : a.frames = some fs) (hpar : a.parent = some p) (hg : a.game = some ())
    (hidx : a.frameIndex + 1 = fs.length) (ht : a.timeNextFrame ≤ now) :
    a.update now = some
      ({ a with
          frameIndex := a.frameIndex + 1
          isPlaying := false
          isFinished := true
          parent := some { p with events := p.events ++ [AnimEvent.onAnimationComplete] }
          timeLastFrame := now
          timeNextFrame := now + a.delay }, true) := by
  have hadv : a.advance fs = some { a with
      frameIndex := a.frameIndex + 1
      isPlaying := false
      isFinished := true
      parent := some { p with events := p.events ++ [AnimEvent.onAnimationComplete] } } := by
    unfold Animation.advance Animation.onComplete
    rw [if_pos hidx, hl]
    simp [hpar]
  unfold Animation.update
  simp only [hp, hg, hf, ht, hadv, if_true, Option.map_some']

/-- C5: the seek setter with a key absent from the frame table overwrites
`currentFrame` with null and changes nothing else (cursor and parent texture
kept); with a present key it stores the resolved descriptor, writes its size
onto the parent texture and sets the cursor to the key value. -/
theorem C5_seek (a1 : Animation) (fd1 : FrameData) (v1 : Nat)
    (a2 : Animation) (fd2 : FrameData) (v2 : Nat) (f : Frame) (p : Parent)
    (hfd1 : a1.frameData = some fd1) (habs : fd1.getFrame v1 = none)
    (hfd2 : a2.frameData = some fd2) (hfound : fd2.getFrame v2 = some f)
    (hpar : a2.parent = some p) :
    a1.setFrame v1 = some { a1 with currentFrame := none } ∧
    a2.setFrame v2 = some { a2 with
      currentFrame := some f
      parent := some { p with texture := { width := f.width, height := f.height } }
      frameIndex := v2 } := by
  constructor
  · unfold Animation.setFrame
    simp only [hfd1, habs]
  · unfold Animation.setFrame
    simp only [hfd2, hfound, hpar]

/-- C6: for a playing looped instance at the last sequence position, a due
`update()` wraps the cursor to 0, re-resolves `currentFrame` from the table
for the first key, and appends exactly one `onAnimationLoop` to the parent's
log; moreover no `update()` on an instance with `looped = true` ever changes
the number of `onAnimationComplete` events in the parent's log. -/
theorem C6_loop_wrap (a : Animation) (fs : List Nat) (fd : FrameData) (p : Parent) (now : ℚ)
    (a2 b2 : Animation) (r2 : Bool) (now2 : ℚ)
    (hp : a.isPlaying = true) (hl : a.looped = true)
    (hf : a.frames = some fs) (hfd : a.frameData = some fd)
    (hpar : a.parent = some p) (hg : a.game = some ())
    (hidx : a.frameIndex + 1 = fs.length) (ht : a.timeNextFrame ≤ now)
    (hl2 : a2.looped = true) (hu2 : a2.update now2 = some (b2, r2)) :
    a.update now = some
      ({ a with
          frameIndex := 0
          currentFrame := (fs.get? 0).bind fd.getFrame
          parent := some { p with events := p.events ++ [AnimEvent.onAnimationLoop] }
          timeLastFrame := now
          timeNextFrame := now + a.delay }, true) ∧
    (b2.parent).map (fun q => q.events.count AnimEvent.onAnimationComplete)
      = (a2.parent).map (fun q => q.events.count AnimEvent.onAnimationComplete) := by
  constructor
  · have hadv : a.advance fs = some { a with
        frameIndex := 0
        currentFrame := (fs.get? 0).bind fd.getFrame
        parent := some { p with events := p.events ++ [AnimEvent.onAnimationLoop] } } := by
      unfold Animation.advance
      rw [if_pos hidx, hl]
      simp [hfd, hpar]
    unfold Animation.update
    simp only [hp, hg, hf, ht, hadv, if_true, Option.map_some']
  · rcases update_eq a2 now2 b2 r2 hu2 with ⟨rfl, _⟩ | ⟨_, fs2, c, _, hadv, rfl⟩
    · rfl
    · have hpc : ({ c with timeLastFrame := now2, timeNextFrame := now2 + a2.delay } : Animation).parent = c.parent := rfl
      rw [hpc]
      rcases advance_parent a2 c fs2 hadv with hsame | ⟨_, p2, hp2, hc2⟩ | ⟨hlf, _, _, _⟩
      · rw [hsame]
      · rw [hp2, hc2]
        simp [List.count_append]
      · rw [hl2] at hlf
        exact absurd hlf (by simp)

/-- C8: on a live instance, `restart()` resets flags, timing, cursor and frame
exactly as a no-argument `play()` does (delay and loop flag untouched), and
the two results differ only in that `play()` additionally appends the
`onAnimationStart` event to the parent's log. -/
theorem C8_restart_eq_play (a : Animation) (now : ℚ) (p : Parent) (fs : List Nat)
    (fd : FrameData)
    (hg : a.game = some ()) (hf : a.frames = some fs) (hfd : a.frameData = some fd)
    (hpar : a.parent = some p) :
    a.restart now = some { a with
      isPlaying := true
      isFinished := false
      timeLastFrame := now
      timeNextFrame := now + a.delay
      frameIndex := 0
      currentFrame := (fs.get? 0).bind fd.getFrame } ∧
    a.play now none none = (a.restart now).map
      (fun b => { b with parent := some { p with events := p.events ++ [AnimEvent.onAnimationStart] } }) := by
  have hr : a.restart now = some { a with
      isPlaying := true
      isFinished := false
      timeLastFrame := now
      timeNextFrame := now + a.delay
      frameIndex := 0
      currentFrame := (fs.get? 0).bind fd.getFrame } := by
    unfold Animation.restart
    rw [hg, hf, hfd]
  refine ⟨hr, ?_⟩
  rw [hr]
  unfold Animation.play
  rw [hg, hf, hfd, hpar]
  rfl

/-- C1, amended: after `play()` at `t0` on a freshly constructed instance, an
`update()` strictly before `t0 + d` (with `d = 1000 / rate`) returns false and
leaves the state unchanged; an `update()` at or after `t0 + d` returns true
and sets `currentIndex` to 1 — except that a looped single-frame sequence
wraps the cursor back to 0 instead; and any instance that is not playing is
left unchanged by `update()`, which returns false. -/
theorem C1_amended (g : Unit) (p : Parent) (fd : FrameData) (n : String)
    (fs : List Nat) (d : ℚ) (l : Bool) (t0 now1 now2 : ℚ) (b c : Animation)
    (hb : ( Animation.create g p fd n fs d l).play t0 none none = some b)
    (hn1 : now1 < t0 + 1000 / d) (hn2 : t0 + 1000 / d ≤ now2)
    (hc : c.isPlaying = false) :
    b.update now1 = some (b, false) ∧
    (b.update now2).map (fun r => (r.2, r.1.frameIndex))
      = some (true, if l = true ∧ fs.length = 1 then 0 else 1) ∧
    c.update now2 = some (c, false) := by
  unfold Animation.create Animation.play at hb
  simp only [Option.some.injEq] at hb
  subst hb
  refine ⟨?_, ?_, ?_⟩
  · have hlt : ¬ ((t0 + 1000 / d : ℚ) ≤ now1) := not_le.mpr hn1
    simp [ Animation.update, hlt]
  · by_cases hlen : fs.length = 1
    · cases l with
      | false =>
        simp [ Animation.update, Animation.advance, Animation.onComplete, hn2, hlen]
      | true =>
        simp [ Animation.update, Animation.advance, hn2, hlen]
    · have hlen2 : ¬ (1 = fs.length) := fun h => hlen h.symm
      simp [ Animation.update, Animation.advance, hn2, hlen, hlen2]
  · simp [ Animation.update, hc]

/-- C2, amended: the range invariant `0 ≤ currentIndex < len(frameSequence)`
holds after construction and is preserved by `play`, `restart`, `stop` and by
the looped and in-bounds branches of `update`; the non-looped completion
branch of `update` instead leaves `currentIndex = len(frameSequence)` (one
past the last valid position, with the instance stopped and finished), and
the frame setter moves `currentIndex` to the given key value, which is not
constrained to be below the sequence length. -/
theorem C2_amended (g : Unit) (p : Parent) (fd : FrameData) (n : String)
    (fs : List Nat) (d : ℚ) (l : Bool) (a b1 b2 b4 b5 : Animation)
    (now : ℚ) (fr : Option ℚ) (lp : Option Bool) (v : Nat) (r : Bool)
    (hfs : fs ≠ []) (ha : a.frames = some fs) (hidx : a.frameIndex < fs.length)
    (h1 : a.play now fr lp = some b1) (h2 : a.restart now = some b2)
    (h4 : a.update now = some (b4, r)) (h5 : a.setFrame v = some b5) :
    ( Animation.create g p fd n fs d l).frameIndex < fs.length ∧
    b1.frameIndex < fs.length ∧
    b2.frameIndex < fs.length ∧
    a.stop.frameIndex < fs.length ∧
    (b4.frameIndex < fs.length ∨
      (b4.frameIndex = fs.length ∧ r = true ∧ b4.isPlaying = false ∧ b4.isFinished = true ∧
        a.looped = false)) ∧
    (b5.frameIndex = a.frameIndex ∨ b5.frameIndex = v) := by
  have hlen : 0 < fs.length := List.length_pos.mpr hfs
  refine ⟨hlen, ?_, ?_, hidx, ?_, setFrame_frameIndex a b5 v h5⟩
  · rw [play_frameIndex a b1 now fr lp h1]
    exact hlen
  · rw [restart_frameIndex a b2 now h2]
    exact hlen
  · rcases update_eq a now b4 r h4 with ⟨rfl, rfl⟩ | ⟨hr, fs2, cc, hfs2, hadv, rfl⟩
    · exact Or.inl hidx
    · rw [ha] at hfs2
      injection hfs2 with hfs2
      subst hfs2
      rcases advance_frameIndex a cc fs hadv with ⟨h0, _, _⟩ |
          ⟨hsucc, hlen2, hlf, hcp, hcf⟩ | ⟨hsucc, hne⟩
      · exact Or.inl (lt_of_eq_of_lt h0 hlen)
      · exact Or.inr ⟨hsucc.trans hlen2, hr, hcp, hcf, hlf⟩
      · have hb4 : ({ cc with timeLastFrame := now, timeNextFrame := now + a.delay } : Animation).frameIndex = a.frameIndex + 1 := hsucc
        exact Or.inl (by omega)

/-- C4, amended: every `update()` call that returns true — the loop-wrap, the
in-bounds advance and the non-looped completion branch alike — sets
`lastAdvanceTime` to `now` and `nextAdvanceTime` to `now + frameIntervalMs`. -/
theorem C4_amended (a b : Animation) (now : ℚ) (h : a.update now = some (b, true)) :
    b.timeLastFrame = now ∧ b.timeNextFrame = now + a.delay := by
  rcases update_eq a now b true h with ⟨_, hfalse⟩ | ⟨_, fs, c, _, _, rfl⟩
  · simp at hfalse
  · exact ⟨rfl, rfl⟩

/-- C7, amended: only the frame-seek setter (on a resolvable key) writes the
resolved descriptor's width and height onto the parent's texture-size pair;
a successful `play()` leaves the parent's texture unchanged, its sole effect
on the parent being the appended `onAnimationStart` event. -/
theorem C7_amended (a : Animation) (fd : FrameData) (v : Nat) (f : Frame) (p : Parent)
    (a3 b3 : Animation) (p3 : Parent) (now : ℚ) (fr : Option ℚ) (lp : Option Bool)
    (hfd : a.frameData = some fd) (hfound : fd.getFrame v = some f)
    (hpar : a.parent = some p)
    (hp3 : a3.parent = some p3) (hplay : a3.play now fr lp = some b3) :
    a.setFrame v = some { a with
      currentFrame := some f
      parent := some { p with texture := { width := f.width, height := f.height } }
      frameIndex := v } ∧
    b3.parent = some { p3 with events := p3.events ++ [AnimEvent.onAnimationStart] } := by
  constructor
  · unfold Animation.setFrame
    simp only [hfd, hfound, hpar]
  · unfold Animation.play at hplay
    cases hg : a3.game with
    | none => simp [hg] at hplay
    | some u =>
      cases hf3 : a3.frames with
      | none => simp [hg, hf3] at hplay
      | some fs3 =>
        cases hfd3 : a3.frameData with
        | none => simp [hg, hf3, hfd3] at hplay
        | some fd3 =>
          simp only [hg, hf3, hfd3, hp3, Option.some.injEq] at hplay
          subst hplay
          rfl

/-- Witness for C1 at a concrete input: `c1wA` played at `t0 = 0` with rate
10 gives `c1wB`; updating at 50 (before the 100 ms window) is the no-op, at
100 it advances the cursor to 1, and the idle `c1wA` is never advanced. -/
theorem C1_amended_witness :
    c1wB.update 50 = some (c1wB, false) ∧
    (c1wB.update 100).map (fun r => (r.2, r.1.frameIndex))
      = some (true, if false = true ∧ ([1, 2] : List Nat).length = 1 then 0 else 1) ∧
    c1wA.update 100 = some (c1wA, false) :=
  C1_amended () pW c1wF "w" [1, 2] 10 false 0 50 100 c1wB c1wA
    (by norm_num [c1wA, c1wB, pW, c1wF, Animation.create, Animation.play,
      FrameData.getFrame, List.get?])
    (by norm_num) (by norm_num) rfl

/-- Witness for C2 at a concrete input: the cursor bound holds for the
construction, play, restart and stop of `c2wA`, the completing update lands
at the out-of-range cursor 1 with the instance stopped, and the failed seek
keeps the cursor. -/
theorem C2_amended_witness :
    ( Animation.create () pW c2wF "w" [5] 10 false).frameIndex < ([5] : List Nat).length ∧
    c2wB1.frameIndex < ([5] : List Nat).length ∧
    c2wB2.frameIndex < ([5] : List Nat).length ∧
    c2wA.stop.frameIndex < ([5] : List Nat).length ∧
    (c2wB4.frameIndex < ([5] : List Nat).length ∨
      (c2wB4.frameIndex = ([5] : List Nat).length ∧ true = true ∧ c2wB4.isPlaying = false ∧
        c2wB4.isFinished = true ∧ c2wA.looped = false)) ∧
    (c2wB5.frameIndex = c2wA.frameIndex ∨ c2wB5.frameIndex = 9) :=
  C2_amended () pW c2wF "w" [5] 10 false c2wA c2wB1 c2wB2 c2wB4 c2wB5 100 none none 9 true
    (by decide) rfl (by decide)
    (by norm_num [c2wA, c2wB1, pW, c2wF, Animation.play, FrameData.getFrame, List.get?])
    (by norm_num [c2wA, c2wB2, pW, c2wF, Animation.restart, FrameData.getFrame, List.get?])
    (by norm_num [c2wA, c2wB4, pW, c2wF, Animation.update, Animation.advance,
      Animation.onComplete, FrameData.getFrame, List.get?])
    (by norm_num [c2wA, c2wB5, pW, c2wF, Animation.setFrame, FrameData.getFrame])

/-- Witness for C3 at a concrete input: the due update of the non-looped
`c3W` at its last position completes with exactly one completion event and
an untouched `currentFrame`. -/
theorem C3_witness :
    c3W.update 100 = some
      ({ c3W with
          frameIndex := c3W.frameIndex + 1
          isPlaying := false
          isFinished := true
          parent := some { pW with events := pW.events ++ [AnimEvent.onAnimationComplete] }
          timeLastFrame := 100
          timeNextFrame := 100 + c3W.delay }, true) :=
  C3_completion c3W [4, 5, 6] pW 100 rfl rfl rfl rfl rfl rfl (le_refl _)

/-- Witness for C4 at a concrete input: the completing update of `c4wA` at
time 100 sets the timing fields to 100 and `100 + delay`. -/
theorem C4_amended_witness :
    c4wB.timeLastFrame = 100 ∧ c4wB.timeNextFrame = 100 + c4wA.delay :=
  C4_amended c4wA c4wB 100
    (by norm_num [c4wA, c4wB, pW, Animation.update, Animation.advance,
      Animation.onComplete, FrameData.getFrame, List.get?])

/-- Witness for C5 at a concrete input: seeking `c5A` to the absent key 9
blanks only `currentFrame`; seeking to the present key 1 stores the
descriptor, resizes the parent texture and moves the cursor to 1. -/
theorem C5_witness :
    c5A.setFrame 9 = some { c5A with currentFrame := none } ∧
    c5A.setFrame 1 = some { c5A with
      currentFrame := some { index := 0, width := 3, height := 4 }
      parent := some { pW with texture := { width := 3, height := 4 } }
      frameIndex := 1 } :=
  C5_seek c5A c5wF 9 c5A c5wF 1 { index := 0, width := 3, height := 4 } pW
    rfl (by decide) rfl (by decide) rfl

/-- Witness for C6 at a concrete input: the due update of the looped `c6W`
at its last position wraps to 0 with exactly one loop event, and an update
of the idle looped `c6W2` leaves the completion count unchanged. -/
theorem C6_witness :
    c6W.update 100 = some
      ({ c6W with
          frameIndex := 0
          currentFrame := (([4, 5, 6] : List Nat).get? 0).bind c6wF.getFrame
          parent := some { pW with events := pW.events ++ [AnimEvent.onAnimationLoop] }
          timeLastFrame := 100
          timeNextFrame := 100 + c6W.delay }, true) ∧
    (c6W2.parent).map (fun q => q.events.count AnimEvent.onAnimationComplete)
      = (c6W2.parent).map (fun q => q.events.count AnimEvent.onAnimationComplete) :=
  C6_loop_wrap c6W [4, 5, 6] c6wF pW 100 c6W2 c6W2 false 0
    rfl rfl rfl rfl rfl rfl rfl (le_refl _) rfl rfl

/-- Witness for C7 at a concrete input: seeking `c7wA` to the present key 2
writes the 6 by 7 frame size onto the parent texture, while playing `c7wA`
only appends the start event to the parent. -/
theorem C7_amended_witness :
    c7wA.setFrame 2 = some { c7wA with
      currentFrame := some { index := 1, width := 6, height := 7 }
      parent := some { pW with texture := { width := 6, height := 7 } }
      frameIndex := 2 } ∧
    c7wB3.parent = some { pW with events := pW.events ++ [AnimEvent.onAnimationStart] } :=
  C7_amended c7wA c7wF 2 { index := 1, width := 6, height := 7 } pW c7wA c7wB3 pW 0 none none
    rfl (by decide) rfl rfl
    (by norm_num [c7wA, c7wB3, pW, c7wF, Animation.create, Animation.play,
      FrameData.getFrame, List.get?])

/-- Witness for C8 at a concrete input: restarting the stopped `c8W` at time
100 resets it, and playing it with no arguments gives the same state plus
the start event. -/
theorem C8_witness :
    c8W.restart 100 = some { c8W with
      isPlaying := true
      isFinished := false
      timeLastFrame := 100
      timeNextFrame := 100 + c8W.delay
      frameIndex := 0
      currentFrame := (([3] : List Nat).get? 0).bind c8wF.getFrame } ∧
    c8W.play 100 none none = some { c8W with
      isPlaying := true
      isFinished := false
      timeLastFrame := 100
      timeNextFrame := 100 + c8W.delay
      frameIndex := 0
      currentFrame := (([3] : List Nat).get? 0).bind c8wF.getFrame
      parent := some { pW with events := pW.events ++ [AnimEvent.onAnimationStart] } } :=
  C8_restart_eq_play c8W 100 pW [3] c8wF rfl rfl rfl rfl
